import Mathlib

/-!
Shallow embedding of the fallback-capable data-access connector
`DB2Connector` of `src/db2_connector.py` (airline analytics dashboard).

The connector holds connection configuration read from the environment,
a `use_mock` degradation flag and an optional connection handle.  Each
metric method either serves a hardcoded sample table (degraded mode) or
attempts a live SQL query, absorbing any failure into the sample table
while latching `use_mock`.  The external database client (`ibm_db` /
`pd.read_sql`) is modelled by an `Oracle` of fallible operations; the
numpy pseudo-random generator is modelled by an abstract deterministic
function of the seed and the draw index; the `datetime.now()` clock is
an explicit `now : Int` parameter (a day number, as `pd.date_range`
with daily frequency uses it).
-/

namespace DB2

/-- A cell value of a result table.  Numeric SQL/pandas values are
rationals, identifiers are integers, dates are day numbers. -/
inductive Value where
  | int (i : Int)
  | num (q : ℚ)
  | str (s : String)
  | time (t : Int)
deriving DecidableEq, Repr

/-- A pandas `DataFrame`: ordered named columns plus rows of cells.
`pd.DataFrame()` (no arguments) is `DataFrame.empty`. -/
structure DataFrame where
  cols : List String
  rows : List (List Value)
deriving DecidableEq, Repr

/-- `pd.DataFrame()`: no columns, no rows. -/
def DataFrame.empty : DataFrame := ⟨[], []⟩

/-- The process environment seen by `os.getenv`. -/
def Env : Type := String → Option String

/-- Python string interpolation of a possibly-`None` value,
as in the connection-string f-string of `db2_connector.py`. -/
def pyStr : Option String → String
  | none => "None"
  | some s => s

/-- The mutable state of a `DB2Connector` instance
(`src/db2_connector.py`, `__init__`, lines 19-28). -/
structure ConnState where
  username : Option String
  password : Option String
  host : String
  port : String
  database : String
  use_mock : Bool
  connection : Option Nat
deriving DecidableEq, Repr

/-- The connection-configuration fields of the state, bundled
(host, port, database name, credentials). -/
def config (s : ConnState) : Option String × Option String × String × String × String :=
  (s.username, s.password, s.host, s.port, s.database)

/-- The external database client: `ibm_db.connect`,
the `SELECT 1 FROM SYSIBM.SYSDUMMY1` probe (`exec_immediate` followed by
`fetch_row`), and `pd.read_sql` on an open connection handle.  Each can
fail with an exception, modelled as `Except String`. -/
structure Oracle where
  connect : String → Except String Nat
  probe : Nat → Except String Unit
  readSql : String → Nat → Except String DataFrame

/-- The connection string built in `test_connection` / `_get_connection`
(lines 34 and 50): unset credentials interpolate as the text `None`. -/
def connString (s : ConnState) : String :=
  "DATABASE=" ++ s.database ++ ";HOSTNAME=" ++ s.host ++ ";PORT=" ++ s.port ++
    ";PROTOCOL=TCPIP;UID=" ++ pyStr s.username ++ ";PWD=" ++ pyStr s.password ++ ";"

/-- `pd.read_sql(query, conn)` where `conn` may be `None`
(when `_get_connection` failed): reading on `None` raises. -/
def read_sql (o : Oracle) (q : String) : Option Nat → Except String DataFrame
  | none => Except.error "connection is None"
  | some c => o.readSql q c

/-- `DB2Connector.test_connection` (lines 30-44): try to connect and run
the probe statement; on any failure the except-branch latches
`use_mock := true`.  The handle is stored as soon as `connect` returns,
so a probe failure still leaves the new handle in place.  Returns the
boolean result and the updated state. -/
def test_connection (o : Oracle) (s : ConnState) : Bool × ConnState :=
  match o.connect (connString s) with
  | Except.error _ => (false, { s with use_mock := true })
  | Except.ok h =>
    match o.probe h with
    | Except.ok _ => (true, { s with connection := some h })
    | Except.error _ => (false, { s with connection := some h, use_mock := true })

/-- The state as `__init__` (lines 19-27) builds it before calling
`test_connection`: credentials and defaults from the environment,
`use_mock := False`, `connection := None`. -/
def initState (env : Env) : ConnState :=
  { username := env "DB_USERNAME"
    password := env "DB_PASSWORD"
    host := (env "DB_HOST").getD "52.211.123.34"
    port := (env "DB_PORT").getD "25010"
    database := (env "DB_NAME").getD "IEMASTER"
    use_mock := false
    connection := none }

/-- `DB2Connector()` construction (lines 19-28): load the configuration
from the environment, then run the initial `test_connection`.  Total: a
constructed state is always returned, never an exception. -/
def initConnector (o : Oracle) (env : Env) : ConnState :=
  (test_connection o (initState env)).2

/-- `DB2Connector._get_connection` (lines 46-55): return the stored
handle, or try to create one; a failed attempt is caught, latches
`use_mock := true` and leaves `connection = None`.  The third component
is the log of live-access attempts made by the call. -/
def get_connection (o : Oracle) (s : ConnState) : Option Nat × ConnState × List String :=
  match s.connection with
  | some c => (some c, s, [])
  | none =>
    match o.connect (connString s) with
    | Except.ok h => (some h, { s with connection := some h }, ["connect"])
    | Except.error _ => (none, { s with use_mock := true }, ["connect"])

/-- Abstract model of the numpy global PRNG: `rng seed k` is the value
underlying the k-th draw after `np.random.seed seed`.  The real
Mersenne Twister is such a deterministic function of the seed; the
mock-data methods of `db2_connector.py` all reseed with 42 before
drawing. -/
def Rng : Type := Nat → Nat → Nat

/-- `np.random.choice(xs)` for the k-th draw (string options). -/
def npChoice (rng : Rng) (seed k : Nat) (xs : List String) : String :=
  xs.getD (rng seed k % xs.length) ""

/-- `np.random.choice(xs)` for the k-th draw (integer options). -/
def npChoiceI (rng : Rng) (seed k : Nat) (xs : List Int) : Int :=
  xs.getD (rng seed k % xs.length) 0

/-- `np.random.randint(lo, hi)` for the k-th draw: a value in `[lo, hi)`. -/
def npRandint (rng : Rng) (seed k : Nat) (lo hi : Int) : Int :=
  lo + (rng seed k % (hi - lo).toNat : Nat)

/-- `np.random.uniform(lo, hi)` for the k-th draw: a value in `[lo, hi]`,
modelled on a grid of 1000 steps. -/
def npUniform (rng : Rng) (seed k : Nat) (lo hi : ℚ) : ℚ :=
  lo + ((rng seed k % 1000 : Nat) : ℚ) / 1000 * (hi - lo)

/-- `_get_mock_total_revenue` (lines 59-61). -/
def get_mock_total_revenue : DataFrame :=
  { cols := ["total_revenue"], rows := [[Value.num 15750000]] }

/-- `_get_mock_revenue_by_route` (lines 63-72), transcribed row by row. -/
def get_mock_revenue_by_route : DataFrame :=
  { cols := ["ROUTE_ID", "origin", "destination", "total_revenue", "ticket_count",
      "avg_ticket_price"]
    rows :=
      [ [Value.int 1, Value.str "JFK", Value.str "LAX", Value.int 2500000, Value.int 5000, Value.int 500]
      , [Value.int 2, Value.str "LAX", Value.str "JFK", Value.int 2200000, Value.int 4400, Value.int 500]
      , [Value.int 3, Value.str "ORD", Value.str "MIA", Value.int 1800000, Value.int 3600, Value.int 500]
      , [Value.int 4, Value.str "DFW", Value.str "LAX", Value.int 1650000, Value.int 3300, Value.int 500]
      , [Value.int 5, Value.str "ATL", Value.str "JFK", Value.int 1500000, Value.int 3000, Value.int 500]
      , [Value.int 6, Value.str "DEN", Value.str "LAX", Value.int 1400000, Value.int 2800, Value.int 500]
      , [Value.int 7, Value.str "SFO", Value.str "LAX", Value.int 1300000, Value.int 2600, Value.int 500]
      , [Value.int 8, Value.str "MIA", Value.str "NYC", Value.int 1200000, Value.int 2400, Value.int 500]
      , [Value.int 9, Value.str "BOS", Value.str "LAX", Value.int 1100000, Value.int 2200, Value.int 500]
      , [Value.int 10, Value.str "LAS", Value.str "LAS", Value.int 1000000, Value.int 2000, Value.int 500] ] }

/-- `_get_mock_load_factor` (lines 74-85): seed 42, 200 generated rows.
Each generated column takes its own block of 200 draws. -/
def get_mock_load_factor (rng : Rng) : DataFrame :=
  { cols := ["FLIGHT_ID", "origin", "destination", "CAPACITY", "passengers_booked",
      "load_factor"]
    rows := (List.range 200).map fun i =>
      [ Value.int (Int.ofNat (i + 1))
      , Value.str (npChoice rng 42 i ["JFK", "LAX", "ORD", "DFW", "ATL"])
      , Value.str (npChoice rng 42 (200 + i) ["LAX", "JFK", "MIA", "ORD", "DEN"])
      , Value.int (npChoiceI rng 42 (400 + i) [150, 180, 200, 250])
      , Value.int (npRandint rng 42 (600 + i) 100 250)
      , Value.num (npUniform rng 42 (800 + i) 65 95) ] }

/-- `_get_mock_fleet_utilization` (lines 87-100): seed 42, 30 rows;
registrations are the literal strings `N1000` .. `N1029`. -/
def get_mock_fleet_utilization (rng : Rng) : DataFrame :=
  { cols := ["AIRPLANE_ID", "MODEL", "REGISTRATION_NUMBER", "TOTAL_FLIGHT_DISTANCE",
      "FLIGHT_HOURS", "FUEL_GALLONS_HOUR", "total_flights", "MAINTENANCE_LAST_ACHECK",
      "MAINTENANCE_TAKEOFFS"]
    rows := (List.range 30).map fun i =>
      [ Value.int (Int.ofNat (i + 1))
      , Value.str (npChoice rng 42 i ["Boeing 747", "Boeing 787", "Airbus A380", "Airbus A350"])
      , Value.str ("N" ++ toString (1000 + i))
      , Value.int (npRandint rng 42 (30 + i) 100000 500000)
      , Value.int (npRandint rng 42 (60 + i) 1000 5000)
      , Value.num (npUniform rng 42 (90 + i) 4000 8000)
      , Value.int (npRandint rng 42 (120 + i) 50 300)
      , Value.int (npRandint rng 42 (150 + i) 0 1000)
      , Value.int (npRandint rng 42 (180 + i) 300 950) ] }

/-- `_get_mock_fuel_efficiency` (lines 102-110). -/
def get_mock_fuel_efficiency : DataFrame :=
  { cols := ["MODEL", "aircraft_count", "avg_fuel_consumption", "avg_distance",
      "avg_flight_hours"]
    rows :=
      [ [Value.str "Boeing 787", Value.int 12, Value.int 5100, Value.int 450000, Value.int 4200]
      , [Value.str "Airbus A350", Value.int 8, Value.int 5300, Value.int 420000, Value.int 3800]
      , [Value.str "Boeing 747", Value.int 10, Value.int 6500, Value.int 380000, Value.int 3500]
      , [Value.str "Airbus A380", Value.int 5, Value.int 7000, Value.int 400000, Value.int 3700] ] }

/-- `_get_mock_maintenance_alerts` (lines 112-120).  Note: no
`MAINTENANCE_LAST_ACHECK` column, unlike the live query (lines 294-310). -/
def get_mock_maintenance_alerts : DataFrame :=
  { cols := ["AIRPLANE_ID", "MODEL", "REGISTRATION_NUMBER", "MAINTENANCE_TAKEOFFS",
      "maintenance_status"]
    rows :=
      [ [Value.int 1, Value.str "Boeing 747", Value.str "N1001", Value.int 950, Value.str "CRITICAL"]
      , [Value.int 5, Value.str "Airbus A380", Value.str "N1005", Value.int 900, Value.str "CRITICAL"]
      , [Value.int 8, Value.str "Boeing 787", Value.str "N1008", Value.int 850, Value.str "HIGH"]
      , [Value.int 12, Value.str "Airbus A350", Value.str "N1012", Value.int 800, Value.str "HIGH"]
      , [Value.int 15, Value.str "Boeing 747", Value.str "N1015", Value.int 750, Value.str "MEDIUM"]
      , [Value.int 18, Value.str "Airbus A380", Value.str "N1018", Value.int 700, Value.str "MEDIUM"] ] }

/-- `_get_mock_passenger_demographics` (lines 122-130). -/
def get_mock_passenger_demographics : DataFrame :=
  { cols := ["GENDER", "passenger_count", "avg_age", "min_age", "max_age"]
    rows :=
      [ [Value.str "M", Value.int 52000, Value.num (85 / 2), Value.int 18, Value.int 82]
      , [Value.str "F", Value.int 48000, Value.num (191 / 5), Value.int 18, Value.int 85] ] }

/-- `_get_mock_hr_metrics` (lines 132-140). -/
def get_mock_hr_metrics : DataFrame :=
  { cols := ["DEPARTMENT_ID", "DEPARTMENT_NAME", "headcount", "total_salary", "avg_salary"]
    rows :=
      [ [Value.int 1, Value.str "Flight Operations", Value.int 350, Value.int 12600000, Value.int 36000]
      , [Value.int 2, Value.str "Maintenance", Value.int 450, Value.int 13500000, Value.int 30000]
      , [Value.int 3, Value.str "Customer Service", Value.int 280, Value.int 7840000, Value.int 28000]
      , [Value.int 4, Value.str "Administration", Value.int 120, Value.int 4200000, Value.int 35000] ] }

/-- `_get_mock_route_network` (lines 142-157): seed 42, 20 rows. -/
def get_mock_route_network (rng : Rng) : DataFrame :=
  { cols := ["ROUTE_ID", "origin_id", "origin", "origin_lat", "origin_lon",
      "destination_id", "destination", "destination_lat", "destination_lon",
      "flight_count", "passenger_count"]
    rows := (List.range 20).map fun i =>
      [ Value.int (Int.ofNat (i + 1))
      , Value.int (Int.ofNat (i + 1))
      , Value.str (npChoice rng 42 i ["JFK", "LAX", "ORD", "DFW", "ATL"])
      , Value.num (npUniform rng 42 (20 + i) 25 45)
      , Value.num (npUniform rng 42 (40 + i) (-125) (-70))
      , Value.int (Int.ofNat (21 + i))
      , Value.str (npChoice rng 42 (60 + i) ["LAX", "JFK", "MIA", "ORD", "DEN"])
      , Value.num (npUniform rng 42 (80 + i) 25 45)
      , Value.num (npUniform rng 42 (100 + i) (-125) (-70))
      , Value.int (npRandint rng 42 (120 + i) 50 300)
      , Value.int (npRandint rng 42 (140 + i) 5000 50000) ] }

/-- `_get_mock_financial_trends` (lines 159-168): seed 42, 30 rows whose
dates are `pd.date_range(end=datetime.now(), periods=30, freq daily)`,
i.e. day numbers `now - 29 .. now`.  The date column depends on the
clock `now`; the generated columns depend only on the seeded RNG. -/
def get_mock_financial_trends (rng : Rng) (now : Int) : DataFrame :=
  { cols := ["flight_date", "ticket_count", "daily_revenue", "avg_ticket_price"]
    rows := (List.range 30).map fun (i : Nat) =>
      [ Value.time (now - (29 - (i : Int)))
      , Value.int (npRandint rng 42 i 200 500)
      , Value.int (npRandint rng 42 (30 + i) 500000 1500000)
      , Value.num (npUniform rng 42 (60 + i) 400 600) ] }

/-- The ten metric methods of `DB2Connector`. -/
inductive Metric where
  | totalRevenue
  | revenueByRoute
  | loadFactor
  | fleetUtilization
  | fuelEfficiency
  | maintenanceAlerts
  | passengerDemographics
  | hrMetrics
  | routeNetwork
  | financialTrends
deriving DecidableEq, Repr

/-- The SQL text each metric method submits in live mode (condensed to
one line from the query literals of `db2_connector.py`; the text is
passed opaquely to the database client). -/
def queryOf : Metric → String
  | Metric.totalRevenue =>
      "SELECT SUM(total_amount) as total_revenue FROM IEPLANE.TICKETS"
  | Metric.revenueByRoute =>
      "SELECT r.ROUTE_ID, a1.AIRPORT_NAME as origin, a2.AIRPORT_NAME as destination, SUM(t.total_amount) as total_revenue, COUNT(t.TICKET_ID) as ticket_count, AVG(t.total_amount) as avg_ticket_price FROM IEPLANE.ROUTES r JOIN ... GROUP BY r.ROUTE_ID, a1.AIRPORT_NAME, a2.AIRPORT_NAME ORDER BY total_revenue DESC"
  | Metric.loadFactor =>
      "SELECT f.FLIGHT_ID, r.ROUTE_ID, a1.AIRPORT_NAME as origin, a2.AIRPORT_NAME as destination, ap.CAPACITY, COUNT(t.TICKET_ID) as passengers_booked, ROUND(FLOAT(COUNT(t.TICKET_ID)) / ap.CAPACITY * 100, 2) as load_factor FROM IEPLANE.FLIGHTS f JOIN ... ORDER BY load_factor DESC"
  | Metric.fleetUtilization =>
      "SELECT ap.AIRPLANE_ID, ap.MODEL, ap.REGISTRATION_NUMBER, ap.TOTAL_FLIGHT_DISTANCE, ap.FLIGHT_HOURS, ap.FUEL_GALLONS_HOUR, COUNT(f.FLIGHT_ID) as total_flights, ap.MAINTENANCE_LAST_ACHECK, ap.MAINTENANCE_TAKEOFFS FROM IEPLANE.AIRPLANES ap LEFT JOIN ... ORDER BY ap.TOTAL_FLIGHT_DISTANCE DESC"
  | Metric.fuelEfficiency =>
      "SELECT ap.MODEL, COUNT(DISTINCT ap.AIRPLANE_ID) as aircraft_count, AVG(ap.FUEL_GALLONS_HOUR) as avg_fuel_consumption, AVG(ap.TOTAL_FLIGHT_DISTANCE) as avg_distance, AVG(ap.FLIGHT_HOURS) as avg_flight_hours FROM IEPLANE.AIRPLANES ap GROUP BY ap.MODEL ORDER BY avg_fuel_consumption ASC"
  | Metric.maintenanceAlerts =>
      "SELECT ap.AIRPLANE_ID, ap.MODEL, ap.REGISTRATION_NUMBER, ap.MAINTENANCE_LAST_ACHECK, ap.MAINTENANCE_TAKEOFFS, CASE WHEN ... END as maintenance_status FROM IEPLANE.AIRPLANES ap WHERE ap.MAINTENANCE_TAKEOFFS >= 500 ORDER BY ap.MAINTENANCE_TAKEOFFS DESC"
  | Metric.passengerDemographics =>
      "SELECT GENDER, COUNT(*) as passenger_count, ROUND(AVG(AGE), 1) as avg_age, MIN(AGE) as min_age, MAX(AGE) as max_age FROM IEPLANE.PASSENGERS GROUP BY GENDER"
  | Metric.hrMetrics =>
      "SELECT d.DEPARTMENT_ID, d.DEPARTMENT_NAME, COUNT(e.EMPLOYEE_ID) as headcount, SUM(e.SALARY) as total_salary, AVG(e.SALARY) as avg_salary FROM IEPLANE.DEPARTMENTS d LEFT JOIN ... GROUP BY d.DEPARTMENT_ID, d.DEPARTMENT_NAME ORDER BY total_salary DESC"
  | Metric.routeNetwork =>
      "SELECT r.ROUTE_ID, a1.AIRPORT_ID as origin_id, a1.AIRPORT_NAME as origin, a1.LATITUDE as origin_lat, a1.LONGITUDE as origin_lon, a2.AIRPORT_ID as destination_id, a2.AIRPORT_NAME as destination, a2.LATITUDE as destination_lat, a2.LONGITUDE as destination_lon, COUNT(f.FLIGHT_ID) as flight_count, SUM(CASE WHEN t.TICKET_ID IS NOT NULL THEN 1 ELSE 0 END) as passenger_count FROM IEPLANE.ROUTES r JOIN ... ORDER BY flight_count DESC"
  | Metric.financialTrends =>
      "SELECT DATE(f.DEPARTURE_TIME) as flight_date, COUNT(DISTINCT t.TICKET_ID) as ticket_count, SUM(t.total_amount) as daily_revenue, AVG(t.total_amount) as avg_ticket_price FROM IEPLANE.FLIGHTS f LEFT JOIN ... GROUP BY DATE(f.DEPARTURE_TIME) ORDER BY flight_date DESC"

/-- The column names of each metric's live query result: the select-list
aliases exactly as written in the query text of the corresponding
`get_...` method of `db2_connector.py` (the documented schema). -/
def liveCols : Metric → List String
  | Metric.totalRevenue => ["total_revenue"]
  | Metric.revenueByRoute =>
      ["ROUTE_ID", "origin", "destination", "total_revenue", "ticket_count",
       "avg_ticket_price"]
  | Metric.loadFactor =>
      ["FLIGHT_ID", "ROUTE_ID", "origin", "destination", "CAPACITY",
       "passengers_booked", "load_factor"]
  | Metric.fleetUtilization =>
      ["AIRPLANE_ID", "MODEL", "REGISTRATION_NUMBER", "TOTAL_FLIGHT_DISTANCE",
       "FLIGHT_HOURS", "FUEL_GALLONS_HOUR", "total_flights",
       "MAINTENANCE_LAST_ACHECK", "MAINTENANCE_TAKEOFFS"]
  | Metric.fuelEfficiency =>
      ["MODEL", "aircraft_count", "avg_fuel_consumption", "avg_distance",
       "avg_flight_hours"]
  | Metric.maintenanceAlerts =>
      ["AIRPLANE_ID", "MODEL", "REGISTRATION_NUMBER", "MAINTENANCE_LAST_ACHECK",
       "MAINTENANCE_TAKEOFFS", "maintenance_status"]
  | Metric.passengerDemographics =>
      ["GENDER", "passenger_count", "avg_age", "min_age", "max_age"]
  | Metric.hrMetrics =>
      ["DEPARTMENT_ID", "DEPARTMENT_NAME", "headcount", "total_salary", "avg_salary"]
  | Metric.routeNetwork =>
      ["ROUTE_ID", "origin_id", "origin", "origin_lat", "origin_lon",
       "destination_id", "destination", "destination_lat", "destination_lon",
       "flight_count", "passenger_count"]
  | Metric.financialTrends =>
      ["flight_date", "ticket_count", "daily_revenue", "avg_ticket_price"]

/-- The sample table each metric serves in fallback mode
(`_get_mock_...` dispatch). -/
def mockDF (m : Metric) (rng : Rng) (now : Int) : DataFrame :=
  match m with
  | Metric.totalRevenue => get_mock_total_revenue
  | Metric.revenueByRoute => get_mock_revenue_by_route
  | Metric.loadFactor => get_mock_load_factor rng
  | Metric.fleetUtilization => get_mock_fleet_utilization rng
  | Metric.fuelEfficiency => get_mock_fuel_efficiency
  | Metric.maintenanceAlerts => get_mock_maintenance_alerts
  | Metric.passengerDemographics => get_mock_passenger_demographics
  | Metric.hrMetrics => get_mock_hr_metrics
  | Metric.routeNetwork => get_mock_route_network rng
  | Metric.financialTrends => get_mock_financial_trends rng now

/-- A metric method `get_...` of `DB2Connector` (each follows the same
shape, e.g. `get_total_revenue`, lines 170-180): if `use_mock` is set,
serve the sample table without touching the database; otherwise obtain
a connection and run the query, and on any failure latch
`use_mock := true` and serve the sample table.  Returns the table, the
updated state and the log of live-access attempts. -/
def runMetric (m : Metric) (o : Oracle) (rng : Rng) (now : Int) (s : ConnState) :
    DataFrame × ConnState × List String :=
  if s.use_mock then (mockDF m rng now, s, [])
  else
    let g := get_connection o s
    match read_sql o (queryOf m) g.1 with
    | Except.ok df => (df, g.2.1, g.2.2 ++ ["read_sql"])
    | Except.error _ => (mockDF m rng now, { g.2.1 with use_mock := true }, g.2.2 ++ ["read_sql"])

/-- `DB2Connector.execute_query` (lines 416-423): run a custom query with
no `use_mock` check and, on failure, return `pd.DataFrame()` (an empty
table with no columns) while latching `use_mock := true`. -/
def execute_query (o : Oracle) (q : String) (s : ConnState) :
    DataFrame × ConnState × List String :=
  let g := get_connection o s
  match read_sql o q g.1 with
  | Except.ok df => (df, g.2.1, g.2.2 ++ ["read_sql"])
  | Except.error _ => (DataFrame.empty, { g.2.1 with use_mock := true }, g.2.2 ++ ["read_sql"])

/-- An operation on a live connector instance: any public method plus
the private connection helper. -/
inductive Op where
  | metric (m : Metric)
  | custom (q : String)
  | testConn
  | getConn
deriving Repr

/-- The state after running one operation on the connector. -/
def applyOp (op : Op) (o : Oracle) (rng : Rng) (now : Int) (s : ConnState) : ConnState :=
  match op with
  | Op.metric m => (runMetric m o rng now s).2.1
  | Op.custom q => (execute_query o q s).2.1
  | Op.testConn => (test_connection o s).2
  | Op.getConn => (get_connection o s).2.1

/-- A constant RNG, for concrete evaluation. -/
def rng0 : Rng := fun _ _ => 0

/-- An environment with no variables set (in particular `DB_USERNAME`
and `DB_PASSWORD` unset). -/
def emptyEnv : Env := fun _ => none

/-- An oracle for an unreachable store: every operation fails. -/
def oracleDown : Oracle :=
  { connect := fun _ => Except.error "connection refused"
    probe := fun _ => Except.error "down"
    readSql := fun _ _ => Except.error "down" }

/-- An oracle for a reachable store whose every query returns `df`. -/
def oracleUp (df : DataFrame) : Oracle :=
  { connect := fun _ => Except.ok 1
    probe := fun _ => Except.ok ()
    readSql := fun _ _ => Except.ok df }

/-- A connector constructed against the unreachable store: degraded from
birth (`use_mock = true`, no connection). -/
def sDeg : ConnState := initConnector oracleDown emptyEnv

/-- A connector constructed against the reachable store: live
(`use_mock = false`, connection handle stored). -/
def sLive : ConnState := initConnector (oracleUp DataFrame.empty) emptyEnv

/-- `_get_connection` never clears the degradation latch. -/
theorem get_connection_mono (o : Oracle) (s : ConnState) (h : s.use_mock = true) :
    (get_connection o s).2.1.use_mock = true := by
  unfold get_connection
  cases s.connection with
  | none => cases o.connect (connString s) <;> simp [h]
  | some c => simpa using h

/-- `_get_connection` leaves the connection configuration unchanged. -/
theorem get_connection_config (o : Oracle) (s : ConnState) :
    config (get_connection o s).2.1 = config s := by
  unfold get_connection
  cases s.connection with
  | none => cases o.connect (connString s) <;> rfl
  | some c => rfl

/-- When `_get_connection` hands back a handle, no failure occurred in
it, so the degradation flag is exactly what it was before. -/
theorem get_connection_ok (o : Oracle) (s : ConnState) (c : Nat)
    (h : (get_connection o s).1 = some c) :
    (get_connection o s).2.1.use_mock = s.use_mock := by
  unfold get_connection at h ⊢
  cases hs : s.connection with
  | none =>
    cases hc : o.connect (connString s) with
    | error e => simp [hs, hc] at h
    | ok d => simp [hs, hc]
  | some d => simp [hs]

/-- `test_connection` never clears the degradation latch. -/
theorem test_connection_mono (o : Oracle) (s : ConnState) (h : s.use_mock = true) :
    (test_connection o s).2.use_mock = true := by
  unfold test_connection
  cases hc : o.connect (connString s) with
  | error e => simp
  | ok c => cases hp : o.probe c <;> simp [hp, h]

/-- `test_connection` leaves the connection configuration unchanged. -/
theorem test_connection_config (o : Oracle) (s : ConnState) :
    config (test_connection o s).2 = config s := by
  unfold test_connection
  cases hc : o.connect (connString s) with
  | error e => rfl
  | ok c => cases hp : o.probe c <;> simp [hp, config]

/-- C1: every metric method, in every connector state, returns a table
and never raises: the result is either the fallback sample table or the
successful live query result — every live failure is absorbed. -/
theorem claim_c1 (m : Metric) (o : Oracle) (rng : Rng) (now : Int) (s : ConnState) :
    (runMetric m o rng now s).1 = mockDF m rng now ∨
      read_sql o (queryOf m) (get_connection o s).1 =
        Except.ok (runMetric m o rng now s).1 := by
  unfold runMetric
  cases hu : s.use_mock with
  | true => left; simp
  | false =>
    cases hr : read_sql o (queryOf m) (get_connection o s).1 with
    | error e => left; simp [hr]
    | ok df => right; simp [hr]

/-- C2: once the instance is degraded (`use_mock = true`), every metric
method skips the live attempt entirely (empty live-access log, state
untouched) and returns the fallback sample table directly. -/
theorem claim_c2 (m : Metric) (o : Oracle) (rng : Rng) (now : Int) (s : ConnState)
    (h : s.use_mock = true) :
    runMetric m o rng now s = (mockDF m rng now, s, []) := by
  unfold runMetric
  simp [h]

/-- C2 witness: a connector degraded from a failed construction serves
the total-revenue sample table with no live access. -/
theorem claim_c2_witness :
    runMetric Metric.totalRevenue oracleDown rng0 0 sDeg =
      (mockDF Metric.totalRevenue rng0 0, sDeg, []) :=
  claim_c2 Metric.totalRevenue oracleDown rng0 0 sDeg rfl

/-- C3: the degraded-mode flag is a one-way latch: every operation on
the connector (metric methods, custom queries, `test_connection`,
`_get_connection`) preserves `use_mock = true`; no operation resets it. -/
theorem claim_c3 (op : Op) (o : Oracle) (rng : Rng) (now : Int) (s : ConnState)
    (h : s.use_mock = true) :
    (applyOp op o rng now s).use_mock = true := by
  cases op with
  | metric m => unfold applyOp runMetric; simp [h]
  | custom q =>
    unfold applyOp execute_query
    cases hr : read_sql o q (get_connection o s).1 with
    | error e => simp [hr]
    | ok df => simpa [hr] using get_connection_mono o s h
  | testConn => exact test_connection_mono o s h
  | getConn => exact get_connection_mono o s h

/-- C3 witness: a custom query on a degraded instance leaves it
degraded. -/
theorem claim_c3_witness :
    (applyOp (Op.custom "SELECT 1 FROM SYSIBM.SYSDUMMY1") oracleDown rng0 0 sDeg).use_mock
      = true :=
  claim_c3 (Op.custom "SELECT 1 FROM SYSIBM.SYSDUMMY1") oracleDown rng0 0 sDeg rfl

/-- C4 counterexample: the load-factor sample table does not have the
same column names as its live query result — the mock omits the
`ROUTE_ID` column that the live select list contains. -/
theorem claim_c4_cex :
    (mockDF Metric.loadFactor rng0 0).cols ≠ liveCols Metric.loadFactor := by
  decide

/-- C4 (amended): for eight of the ten metric methods the sample table
has exactly the live query's column names; the load-factor mock omits
the live `ROUTE_ID` column and the maintenance-alerts mock omits the
live `MAINTENANCE_LAST_ACHECK` column (and otherwise matches, in
order). -/
theorem claim_c4_amended (m : Metric) (rng : Rng) (now : Int) :
    (m ≠ Metric.loadFactor → m ≠ Metric.maintenanceAlerts →
      (mockDF m rng now).cols = liveCols m) ∧
    (mockDF Metric.loadFactor rng now).cols =
      (liveCols Metric.loadFactor).erase "ROUTE_ID" ∧
    (mockDF Metric.maintenanceAlerts rng now).cols =
      (liveCols Metric.maintenanceAlerts).erase "MAINTENANCE_LAST_ACHECK" := by
  refine ⟨?_, rfl, rfl⟩
  intro h1 h2
  cases m <;> first
    | rfl
    | exact absurd rfl h1
    | exact absurd rfl h2

/-- C4 witness: the total-revenue sample table carries exactly the live
column names. -/
theorem claim_c4_witness :
    (mockDF Metric.totalRevenue rng0 0).cols = liveCols Metric.totalRevenue :=
  (claim_c4_amended Metric.totalRevenue rng0 0).1 (by decide) (by decide)

/-- C5 counterexample: fallback generation is not a function of the seed
alone — the financial-trends sample table differs between two calls at
two different clock times, because its `flight_date` column is anchored
at `datetime.now()`. -/
theorem claim_c5_cex :
    get_mock_financial_trends rng0 0 ≠ get_mock_financial_trends rng0 1 := by
  decide

/-- C5 (amended): for a fixed seeded RNG, every fallback table other
than financial trends is identical across calls at any two times, and
the financial-trends table keeps the same row count and the same
generated values in all columns except its clock-anchored `flight_date`
column. -/
theorem claim_c5_amended (rng : Rng) (t1 t2 : Int) :
    (∀ m : Metric, m ≠ Metric.financialTrends → mockDF m rng t1 = mockDF m rng t2) ∧
    (get_mock_financial_trends rng t1).rows.length =
      (get_mock_financial_trends rng t2).rows.length ∧
    (get_mock_financial_trends rng t1).rows.map (List.drop 1) =
      (get_mock_financial_trends rng t2).rows.map (List.drop 1) := by
  refine ⟨?_, ?_, ?_⟩
  · intro m hm
    cases m <;> first | rfl | exact absurd rfl hm
  · simp [get_mock_financial_trends]
  · simp only [get_mock_financial_trends, List.map_map]
    rfl

/-- C5 witness: the load-factor sample table is the same at two
different times. -/
theorem claim_c5_witness :
    mockDF Metric.loadFactor rng0 3 = mockDF Metric.loadFactor rng0 7 :=
  (claim_c5_amended rng0 3 7).1 Metric.loadFactor (by decide)

/-- C6: on a degraded connector (store unreachable), total revenue is a
one-row table holding the fixed value 15750000.00, and a second request
on the same instance returns the same table. -/
theorem claim_c6 (o : Oracle) (rng : Rng) (now : Int) (s : ConnState)
    (h : s.use_mock = true) :
    (runMetric Metric.totalRevenue o rng now s).1 =
      { cols := ["total_revenue"], rows := [[Value.num 15750000]] } ∧
    (runMetric Metric.totalRevenue o rng now
        (runMetric Metric.totalRevenue o rng now s).2.1).1 =
      (runMetric Metric.totalRevenue o rng now s).1 := by
  unfold runMetric
  simp [h, mockDF, get_mock_total_revenue]

/-- C6 witness: the degraded sample connector serves the fixed
total-revenue row, twice. -/
theorem claim_c6_witness :
    (runMetric Metric.totalRevenue oracleDown rng0 0 sDeg).1 =
      { cols := ["total_revenue"], rows := [[Value.num 15750000]] } ∧
    (runMetric Metric.totalRevenue oracleDown rng0 0
        (runMetric Metric.totalRevenue oracleDown rng0 0 sDeg).2.1).1 =
      (runMetric Metric.totalRevenue oracleDown rng0 0 sDeg).1 :=
  claim_c6 oracleDown rng0 0 sDeg rfl

/-- C7: in live mode, a successful query that yields zero rows is
returned unchanged — no exception, no fallback substitution, and the
connector does not switch into degraded mode. -/
theorem claim_c7 (m : Metric) (o : Oracle) (rng : Rng) (now : Int) (s : ConnState)
    (df : DataFrame) (hm : s.use_mock = false) (hz : df.rows = [])
    (hq : read_sql o (queryOf m) (get_connection o s).1 = Except.ok df) :
    (runMetric m o rng now s).1 = df ∧
    (runMetric m o rng now s).2.1.use_mock = false := by
  have hc : ∃ c, (get_connection o s).1 = some c := by
    cases hg : (get_connection o s).1 with
    | none => rw [hg] at hq; exact absurd hq (by simp [read_sql])
    | some c => exact ⟨c, rfl⟩
  obtain ⟨c, hc⟩ := hc
  unfold runMetric
  rw [hm]
  simp only [Bool.false_eq_true, if_false, hq]
  exact ⟨trivial, by rw [get_connection_ok o s c hc]; exact hm⟩

/-- C7 witness: a live connector whose store answers with an empty
result set returns the empty table and stays live. -/
theorem claim_c7_witness :
    (runMetric Metric.passengerDemographics (oracleUp DataFrame.empty) rng0 0 sLive).1 =
      DataFrame.empty ∧
    (runMetric Metric.passengerDemographics (oracleUp DataFrame.empty) rng0 0
        sLive).2.1.use_mock = false :=
  claim_c7 Metric.passengerDemographics (oracleUp DataFrame.empty) rng0 0 sLive
    DataFrame.empty rfl rfl rfl

/-- C8: the connection configuration (credentials, host, port, database
name) is immutable: every connector operation leaves those five fields
unchanged, whatever the oracle does. -/
theorem claim_c8 (op : Op) (o : Oracle) (rng : Rng) (now : Int) (s : ConnState) :
    config (applyOp op o rng now s) = config s := by
  cases op with
  | metric m =>
    unfold applyOp runMetric
    cases hu : s.use_mock with
    | true => simp
    | false =>
      cases hr : read_sql o (queryOf m) (get_connection o s).1 with
      | error e => simpa [hr, config] using congrArg id (get_connection_config o s)
      | ok df => simpa [hr] using get_connection_config o s
  | custom q =>
    unfold applyOp execute_query
    cases hr : read_sql o q (get_connection o s).1 with
    | error e => simpa [hr, config] using congrArg id (get_connection_config o s)
    | ok df => simpa [hr] using get_connection_config o s
  | testConn => exact test_connection_config o s
  | getConn => exact get_connection_config o s

/-- C9: `execute_query` ignores the degraded-mode protocol: on an
already-degraded instance it still makes a live access attempt, and on
any failure it returns the column-less empty table — never sample
data — while latching `use_mock`. -/
theorem claim_c9 (o : Oracle) (q : String) (s : ConnState) (h : s.use_mock = true) :
    (execute_query o q s).2.2 ≠ [] ∧
    ∀ e, read_sql o q (get_connection o s).1 = Except.error e →
      (execute_query o q s).1 = DataFrame.empty ∧
      (execute_query o q s).2.1.use_mock = true := by
  constructor
  · unfold execute_query
    cases hr : read_sql o q (get_connection o s).1 <;> simp [hr]
  · intro e he
    unfold execute_query
    simp [he]

/-- C9 witness: a degraded connector with an unreachable store still
attempts the query and hands back the column-less empty table. -/
theorem claim_c9_witness :
    (execute_query oracleDown "SELECT TABNAME FROM SYSCAT.TABLES" sDeg).1 =
      DataFrame.empty ∧
    (execute_query oracleDown "SELECT TABNAME FROM SYSCAT.TABLES" sDeg).2.1.use_mock =
      true :=
  (claim_c9 oracleDown "SELECT TABNAME FROM SYSCAT.TABLES" sDeg rfl).2
    "connection is None" rfl

/-- C10: constructing the fallback connector never raises — for every
environment (credentials may be unset: they interpolate as the text
`None`) and every oracle, `initConnector` returns a state, and unless
both the initial connect and the probe succeeded, that state is
degraded (`use_mock = true`). -/
theorem claim_c10 (env : Env) (o : Oracle) :
    (initConnector o env).use_mock = true ∨
    ∃ c, o.connect (connString (initState env)) = Except.ok c ∧
      o.probe c = Except.ok () := by
  unfold initConnector test_connection
  cases hc : o.connect (connString (initState env)) with
  | error e => left; simp
  | ok c =>
    cases hp : o.probe c with
    | error e => left; simp [hp]
    | ok u => right; exact ⟨c, rfl, hp⟩

end DB2
